import Mathlib

/-!
Verification of the Mumblr backend (`src/app.py`, Flask + openai).

The development embeds the POST /mumblr handler as a pure function of
the decoded JSON request body and of the outcome of the single call to
the generation service: request validation (raw-line derivation from
`recordings` with a `transcription` fallback), prompt construction, and
the mapping from exceptions to HTTP error responses.  The syllable
estimator described in the specification has no definition under src/
and is modelled from the spec text.
-/

namespace Mumblr

/-- Decoded JSON values as produced by Flask `request.get_json`.
Numbers are modelled as integers (the endpoint under study involves no
fractional numerics); objects are ordered key/value lists as the JSON
decoder yields them. -/
inductive Json where
  | null : Json
  | bool (b : Bool) : Json
  | num (n : Int) : Json
  | str (s : String) : Json
  | arr (xs : List Json) : Json
  | obj (kvs : List (String × Json)) : Json

/-- ASCII whitespace stripped by Python `str.strip` (space, tab,
newline, carriage return, vertical tab, form feed); non-ASCII
whitespace is outside the model. -/
def pySpace (c : Char) : Bool :=
  c == ' ' || c == '\t' || c == '\n' || c == '\r' || c == '\x0b' || c == '\x0c'

/-- Python `str.strip` on a character list: drop leading and trailing
whitespace. -/
def pyStripL (l : List Char) : List Char :=
  ((l.dropWhile pySpace).reverse.dropWhile pySpace).reverse

/-- Python `str.strip`. -/
def pyStrip (s : String) : String :=
  String.mk (pyStripL s.data)

/-- Python repr of a string: single quotes, switching to double quotes
when the text holds a single quote but no double quote; backslashes and
the delimiter are escaped (control-character escapes are outside the
model). -/
def pyQuote (s : String) : String :=
  if s.data.any (fun c => c == '\'') && !s.data.any (fun c => c == '"') then
    "\"" ++ String.mk (s.data.flatMap (fun c =>
      if c == '\\' then ['\\', '\\'] else [c])) ++ "\""
  else
    "'" ++ String.mk (s.data.flatMap (fun c =>
      if c == '\\' then ['\\', '\\']
      else if c == '\'' then ['\\', '\''] else [c])) ++ "'"

mutual

/-- Python repr of a decoded JSON value: None, True, False, decimal
integers, quoted strings, bracketed lists, braced dicts. -/
def pyRepr : Json → String
  | Json.null => "None"
  | Json.bool true => "True"
  | Json.bool false => "False"
  | Json.num n => toString n
  | Json.str s => pyQuote s
  | Json.arr xs => "[" ++ pyReprElems xs ++ "]"
  | Json.obj kvs => "\x7b" ++ pyReprPairs kvs ++ "\x7d"

/-- Comma-separated reprs of the elements of a list. -/
def pyReprElems : List Json → String
  | [] => ""
  | [x] => pyRepr x
  | x :: y :: xs => pyRepr x ++ ", " ++ pyReprElems (y :: xs)

/-- Comma-separated `key: value` pairs of a dict repr. -/
def pyReprPairs : List (String × Json) → String
  | [] => ""
  | [(k, v)] => pyQuote k ++ ": " ++ pyRepr v
  | (k, v) :: p :: kvs => pyQuote k ++ ": " ++ pyRepr v ++ ", " ++ pyReprPairs (p :: kvs)

end

/-- Python `str()`: the identity on strings, repr otherwise (this is
what `str(x)` yields for values decoded from JSON). -/
def pyStr : Json → String
  | Json.str s => s
  | v => pyRepr v

/-- Python truthiness of a decoded JSON value. -/
def pyTruthy : Json → Bool
  | Json.null => false
  | Json.bool b => b
  | Json.num n => n != 0
  | Json.str s => s != ""
  | Json.arr xs => !xs.isEmpty
  | Json.obj kvs => !kvs.isEmpty

/-- Python type name of a decoded JSON value, as it appears in
AttributeError and TypeError messages. -/
def pyTypeName : Json → String
  | Json.null => "NoneType"
  | Json.bool _ => "bool"
  | Json.num _ => "int"
  | Json.str _ => "str"
  | Json.arr _ => "list"
  | Json.obj _ => "dict"

/-- Python `dict.get(key, default)`.  On duplicate keys the JSON
decoder keeps the last binding, so lookup prefers later entries. -/
def dictGet (kvs : List (String × Json)) (k : String) (d : Json) : Json :=
  match kvs.reverse.find? (fun kv => kv.fst == k) with
  | some kv => kv.snd
  | none => d

/-- Python iteration over the value found under `recordings`: lists
yield their elements, strings their characters, dicts their keys;
iterating any other value raises TypeError (`none`). -/
def pyIter : Json → Option (List Json)
  | Json.arr xs => some xs
  | Json.str s => some (s.data.map (fun c => Json.str (String.mk [c])))
  | Json.obj kvs => some (kvs.map (fun kv => Json.str kv.fst))
  | _ => none

/-- The list comprehension of app.py lines 86-88: stringify and trim
each element, drop the entries that trim to the empty string. -/
def recLines (xs : List Json) : List String :=
  (xs.map (fun x => pyStrip (pyStr x))).filter (fun s => s != "")

/-- Expression `request.get_json(force=True) or ...` of app.py line 82:
a falsy decoded body is replaced by the empty dict. -/
def dataOf (body : Json) : Json :=
  if pyTruthy body then body else Json.obj []

/-- Whether a decoded JSON value is an object (a Python dict). -/
def isObj : Json → Bool
  | Json.obj _ => true
  | _ => false

/-- Expression `str(data.get("transcription", "")).strip()` of app.py
line 89. -/
def transcriptionOf (kvs : List (String × Json)) : String :=
  pyStrip (pyStr (dictGet kvs "transcription" (Json.str "")))

/-- Expression `str(data.get("mood", "")).strip()` of app.py
line 104. -/
def moodField (kvs : List (String × Json)) : String :=
  pyStrip (pyStr (dictGet kvs "mood" (Json.str "")))

/-- Expression `str(data.get("section", "")).strip()` of app.py
line 105. -/
def sectionField (kvs : List (String × Json)) : String :=
  pyStrip (pyStr (dictGet kvs "section" (Json.str "")))

/-- Expression `str(data.get("story", "")).strip() or "(none)"` of
app.py line 106: the story falls back to the text `(none)` when it
trims to the empty string. -/
def storyField (kvs : List (String × Json)) : String :=
  let s := pyStrip (pyStr (dictGet kvs "story" (Json.str "")))
  if s == "" then "(none)" else s

/-- Raw-line derivation of the handler (app.py lines 85-90): stringify
and trim the recordings, drop empties, fall back to the trimmed
transcription; `none` on the paths where the handler instead raises
(the data value is not a dict, or `recordings` is not iterable). -/
def deriveRawLines (body : Json) : Option (List String) :=
  match dataOf body with
  | Json.obj kvs =>
    match pyIter (dictGet kvs "recordings" (Json.arr [])) with
    | some xs =>
      let recordings := recLines xs
      let transcription := transcriptionOf kvs
      if recordings.isEmpty && transcription != "" then some [transcription]
      else some recordings
    | none => none
  | _ => none

/-- Expression `"\n".join(f"- ..." for line in recordings)` of app.py
line 100. -/
def mumbleBlock (recordings : List String) : String :=
  String.intercalate "\n" (recordings.map (fun line => "- " ++ line))

/-- The user-prompt f-string of app.py lines 108-121 before the final
strip. -/
def rawUserPrompt (recordings : List String) (mood sec story : String) : String :=
  "\n### Raw takes\n" ++ mumbleBlock recordings ++
  "\n\n### Context\nMood:    " ++ mood ++
  "\nSection: " ++ sec ++
  "\nStory:   " ++ story ++
  "\n\n### Instructions\nFinish each raw take into a polished lyric line following the Requirements.\nReturn exactly " ++
  toString recordings.length ++ " numbered lines, nothing else.\n"

/-- The user prompt sent to the generation service (the f-string with
its trailing `.strip()`). -/
def userPrompt (recordings : List String) (mood sec story : String) : String :=
  pyStrip (rawUserPrompt recordings mood sec story)

/-- The user prompt built for a request body, when the handler reaches
the prompt-building step. -/
def promptOf (body : Json) : Option String :=
  match dataOf body with
  | Json.obj kvs =>
    match deriveRawLines body with
    | some recordings =>
      if recordings.isEmpty then none
      else some (userPrompt recordings (moodField kvs) (sectionField kvs) (storyField kvs))
    | none => none
  | _ => none

/-- Outcome of the `client.chat.completions.create` call: the reply
text, an OpenAIError, or any other exception (with its `str()`
text). -/
inductive Upstream where
  | success (text : String) : Upstream
  | openaiError (msg : String) : Upstream
  | otherError (msg : String) : Upstream
deriving DecidableEq

/-- Response payload: a `jsonify(...)` body or plain text. -/
inductive RespBody where
  | jsonBody (j : Json) : RespBody
  | textBody (s : String) : RespBody

/-- The `(body, status, headers)` triple returned by the handler, with
the headers abbreviated to the Content-Type value. -/
structure HttpResponse where
  body : RespBody
  status : Nat
  contentType : String

/-- Response `jsonify` of an object with a single `error` key, with the
given status. -/
def errorResponse (msg : String) (status : Nat) : HttpResponse :=
  ⟨RespBody.jsonBody (Json.obj [("error", Json.str msg)]), status, "application/json"⟩

/-- The POST /mumblr handler of app.py (lines 80-148) as a function of
the decoded request body and of the generation-service outcome.  Paths
that raise inside the try block land in the two except arms:
OpenAIError maps to 502, everything else to 500. -/
def mumblr (body : Json) (up : Upstream) : HttpResponse :=
  match dataOf body with
  | Json.obj kvs =>
    match pyIter (dictGet kvs "recordings" (Json.arr [])) with
    | some xs =>
      let recordings0 := recLines xs
      let transcription := transcriptionOf kvs
      let recordings :=
        if recordings0.isEmpty && transcription != "" then [transcription]
        else recordings0
      if recordings.isEmpty then
        errorResponse "No recordings / transcription provided." 400
      else
        match up with
        | Upstream.success text =>
          ⟨RespBody.textBody (pyStrip text), 200, "text/plain"⟩
        | Upstream.openaiError msg =>
          errorResponse ("OpenAI API error: " ++ msg) 502
        | Upstream.otherError msg =>
          errorResponse ("Server error: " ++ msg) 500
    | none =>
      errorResponse
        ("Server error: '" ++ pyTypeName (dictGet kvs "recordings" (Json.arr [])) ++
          "' object is not iterable") 500
  | d =>
    errorResponse
      ("Server error: '" ++ pyTypeName d ++ "' object has no attribute 'get'") 500

/-- Raw-line derivation exactly as the specification words it (request
validator section): stringify and trim each recordings element, drop
the empties; exactly when that list is empty and the trimmed
transcription is non-empty, the raw lines are the one-element sequence
holding the trimmed transcription. -/
def specRawLines (xs : List Json) (t : String) : List String :=
  let filtered := (xs.map (fun x => pyStrip (pyStr x))).filter (fun s => s != "")
  if filtered = [] ∧ t ≠ "" then [t] else filtered

/-- Vowels of the syllable heuristic (case handled by lowering
first). -/
def isVowel (c : Char) : Bool :=
  c == 'a' || c == 'e' || c == 'i' || c == 'o' || c == 'u' || c == 'y'

/-- Maximal runs of vowels in a character list. -/
def vowelGroups : List Char → List (List Char)
  | [] => []
  | [c] => if isVowel c then [[c]] else []
  | c :: c' :: cs =>
    let rest := vowelGroups (c' :: cs)
    if isVowel c then
      if isVowel c' then
        match rest with
        | g :: gs => (c :: g) :: gs
        | [] => [[c]]
      else [c] :: rest
    else rest

/-- Modelled from the spec: the syllable estimator `count_syllables` of
specification section 4.1 appears in no file under src/.  Per the spec
text: count maximal runs of the characters a, e, i, o, u, y
(case-insensitive) as one syllable each; discard a run that is exactly
the single character e when the word has more than one vowel group
(silent trailing e heuristic); clamp the result to a minimum of 1. -/
def count_syllables (line : String) : Nat :=
  let groups := vowelGroups (line.data.map Char.toLower)
  let kept := if groups.length > 1 then groups.filter (fun g => g != ['e']) else groups
  max kept.length 1

/-- Boolean test that the first list is a prefix of the second. -/
def prefixB : List Char → List Char → Bool
  | [], _ => true
  | _ :: _, [] => false
  | a :: as, b :: bs => a == b && prefixB as bs

/-- Boolean test that `pat` occurs contiguously inside the second
list. -/
def infixB (pat : List Char) : List Char → Bool
  | [] => prefixB pat []
  | a :: t => prefixB pat (a :: t) || infixB pat t

/-- Python `in` on strings: substring occurrence. -/
def strContains (s pat : String) : Bool := infixB pat.data s.data

/-- Middle portion of the user prompt between the leading hash and the
trailing period, used to state the shape of the stripped prompt. -/
def promptCore (recordings : List String) (mood sec story : String) : String :=
  "## Raw takes\n" ++ mumbleBlock recordings ++
  "\n\n### Context\nMood:    " ++ mood ++
  "\nSection: " ++ sec ++
  "\nStory:   " ++ story ++
  "\n\n### Instructions\nFinish each raw take into a polished lyric line following the Requirements.\nReturn exactly " ++
  toString recordings.length ++ " numbered lines, nothing else"

theorem prefixB_append (pat t : List Char) : prefixB pat (pat ++ t) = true := by
  induction pat with
  | nil => rfl
  | cons a as ih => simp [prefixB, ih]

theorem infixB_cons (pat : List Char) (a : Char) (l : List Char)
    (h : infixB pat l = true) : infixB pat (a :: l) = true := by
  simp [infixB, h]

theorem infixB_self_append (pat t : List Char) : infixB pat (pat ++ t) = true := by
  cases pat with
  | nil =>
    cases t with
    | nil => rfl
    | cons c r => simp [infixB, prefixB]
  | cons a as =>
    show infixB (a :: as) (a :: (as ++ t)) = true
    simp only [infixB, Bool.or_eq_true]
    exact Or.inl (prefixB_append (a :: as) t)

theorem infixB_append_mono (s l pat : List Char) (h : infixB pat l = true) :
    infixB pat (s ++ l) = true := by
  induction s with
  | nil => exact h
  | cons a as ih => exact infixB_cons pat a (as ++ l) ih

theorem strContains_append_right (s t pat : String) (h : strContains t pat = true) :
    strContains (s ++ t) pat = true := by
  unfold strContains at h ⊢
  rw [String.data_append]
  exact infixB_append_mono s.data t.data pat.data h

theorem strContains_self_append (pat t : String) : strContains (pat ++ t) pat = true := by
  unfold strContains
  rw [String.data_append]
  exact infixB_self_append pat.data t.data

theorem str_append_assoc (a b c : String) : a ++ b ++ c = a ++ (b ++ c) :=
  String.ext (by simp [String.data_append])

theorem exists_dropWhile_append (p : Char → Bool) (l : List Char) :
    ∃ s, l = s ++ l.dropWhile p := by
  induction l with
  | nil => exact ⟨[], rfl⟩
  | cons a l ih =>
    cases h : p a with
    | true =>
      obtain ⟨s, hs⟩ := ih
      refine ⟨a :: s, ?_⟩
      simp only [List.dropWhile_cons, h, if_true, List.cons_append]
      exact congrArg (a :: ·) hs
    | false =>
      refine ⟨[], ?_⟩
      simp [List.dropWhile_cons, h]

theorem infixB_pyStripL (l : List Char) : infixB (pyStripL l) l = true := by
  obtain ⟨s1, h1⟩ := exists_dropWhile_append pySpace l
  obtain ⟨s2, h2⟩ := exists_dropWhile_append pySpace (l.dropWhile pySpace).reverse
  have hm : l.dropWhile pySpace = pyStripL l ++ s2.reverse := by
    have h3 := congrArg List.reverse h2
    simpa [pyStripL, List.reverse_append] using h3
  have hl : l = s1 ++ (pyStripL l ++ s2.reverse) := by rw [← hm]; exact h1
  have h4 := infixB_append_mono s1 (pyStripL l ++ s2.reverse) (pyStripL l)
    (infixB_self_append (pyStripL l) s2.reverse)
  rw [← hl] at h4
  exact h4

theorem pyStripL_wrap (a b : Char) (l : List Char)
    (ha : pySpace a = false) (hb : pySpace b = false) :
    pyStripL ('\n' :: ((a :: (l ++ [b])) ++ ['\n'])) = a :: (l ++ [b]) := by
  have hnl : pySpace '\n' = true := by decide
  unfold pyStripL
  rw [List.dropWhile_cons_of_pos hnl]
  rw [show (a :: (l ++ [b])) ++ ['\n'] = a :: (l ++ [b] ++ ['\n']) from by simp]
  rw [List.dropWhile_cons_of_neg (by simp [ha])]
  rw [show (a :: (l ++ [b] ++ ['\n'])).reverse = '\n' :: (b :: (l.reverse ++ [a])) from by simp]
  rw [List.dropWhile_cons_of_pos hnl]
  rw [List.dropWhile_cons_of_neg (by simp [hb])]
  simp

theorem pyStrip_hash_dot (mid : String) :
    pyStrip ("\n" ++ ("#" ++ mid ++ ".") ++ "\n") = "#" ++ mid ++ "." := by
  apply String.ext
  show pyStripL (("\n" ++ ("#" ++ mid ++ ".") ++ "\n").data) = ("#" ++ mid ++ ".").data
  have h1 : ("\n" ++ ("#" ++ mid ++ ".") ++ "\n").data
      = '\n' :: (('#' :: (mid.data ++ ['.'])) ++ ['\n']) := by
    simp [String.data_append]
  rw [h1, pyStripL_wrap '#' '.' mid.data (by decide) (by decide)]
  simp [String.data_append]

set_option maxRecDepth 8000 in
theorem userPrompt_eq (recordings : List String) (mood sec story : String) :
    userPrompt recordings mood sec story
      = "#" ++ promptCore recordings mood sec story ++ "." := by
  have h : rawUserPrompt recordings mood sec story
      = "\n" ++ ("#" ++ promptCore recordings mood sec story ++ ".") ++ "\n" := by
    apply String.ext
    have l1 : ("\n### Raw takes\n" : String).data
        = '\n' :: '#' :: ("## Raw takes\n" : String).data := by decide
    have l2 : (" numbered lines, nothing else.\n" : String).data
        = (" numbered lines, nothing else" : String).data ++ ['.', '\n'] := by decide
    simp [rawUserPrompt, promptCore, String.data_append, l1, l2]
  unfold userPrompt
  rw [h, pyStrip_hash_dot]

theorem dataOf_obj (kvs : List (String × Json)) : dataOf (Json.obj kvs) = Json.obj kvs := by
  cases kvs with
  | nil => rfl
  | cons a t => rfl

/-- When the derived raw-line list is non-empty, the handler reaches
the generation-service call and its response is determined by the call
outcome alone. -/
theorem mumblr_reaches_call (body : Json) (lines : List String) (up : Upstream)
    (h : deriveRawLines body = some lines) (hne : lines ≠ []) :
    mumblr body up =
      match up with
      | Upstream.success text => ⟨RespBody.textBody (pyStrip text), 200, "text/plain"⟩
      | Upstream.openaiError msg => errorResponse ("OpenAI API error: " ++ msg) 502
      | Upstream.otherError msg => errorResponse ("Server error: " ++ msg) 500 := by
  unfold deriveRawLines at h
  unfold mumblr
  cases hd : dataOf body with
  | obj kvs =>
    rw [hd] at h
    dsimp only at h ⊢
    cases hi : pyIter (dictGet kvs "recordings" (Json.arr [])) with
    | some xs =>
      rw [hi] at h
      dsimp only at h ⊢
      cases hc : ((recLines xs).isEmpty && (transcriptionOf kvs != "")) with
      | true =>
        rw [hc] at h
        rw [if_pos rfl] at h
        replace h := Option.some.inj h
        subst h
        simp [hc]
      | false =>
        rw [hc] at h
        rw [if_neg (by simp)] at h
        replace h := Option.some.inj h
        subst h
        cases he : (recLines xs).isEmpty with
        | true => exact absurd (List.isEmpty_iff.mp he) hne
        | false => simp [hc, he]
    | none =>
      rw [hi] at h
      simp at h
  | null => rw [hd] at h; simp at h
  | bool b => rw [hd] at h; simp at h
  | num n => rw [hd] at h; simp at h
  | str s => rw [hd] at h; simp at h
  | arr xs => rw [hd] at h; simp at h

/-- When every derivation outcome is the empty list, the handler never
answers 200. -/
theorem mumblr_not_call (body : Json) (up : Upstream)
    (h : ∀ lines, deriveRawLines body = some lines → lines = []) :
    (mumblr body up).status ≠ 200 := by
  unfold mumblr
  cases hd : dataOf body with
  | obj kvs =>
    dsimp only
    cases hi : pyIter (dictGet kvs "recordings" (Json.arr [])) with
    | some xs =>
      have hder : deriveRawLines body = some
          (if (recLines xs).isEmpty && (transcriptionOf kvs != "")
           then [transcriptionOf kvs] else recLines xs) := by
        unfold deriveRawLines
        rw [hd]
        dsimp only
        rw [hi]
        dsimp only
        cases hc : ((recLines xs).isEmpty && (transcriptionOf kvs != "")) <;> simp [hc]
      have hnil := h _ hder
      dsimp only
      rw [hnil]
      simp [errorResponse]
    | none => simp [errorResponse]
  | null => simp [errorResponse]
  | bool b => simp [errorResponse]
  | num n => simp [errorResponse]
  | str s => simp [errorResponse]
  | arr xs => simp [errorResponse]

/-- C1: for every request whose derived raw-line list is non-empty and
has size N, the user prompt built by the handler is defined and holds
the literal decimal rendering of N as the required output line
count. -/
theorem C1_prompt_contains_count (kvs : List (String × Json)) (lines : List String)
    (h : deriveRawLines (Json.obj kvs) = some lines) (hne : lines ≠ []) :
    promptOf (Json.obj kvs)
      = some (userPrompt lines (moodField kvs) (sectionField kvs) (storyField kvs)) ∧
    strContains (userPrompt lines (moodField kvs) (sectionField kvs) (storyField kvs))
      (toString lines.length) = true := by
  constructor
  · have hni : lines.isEmpty = false := by
      cases hl : lines with
      | nil => exact absurd hl hne
      | cons a t => rfl
    unfold promptOf
    rw [dataOf_obj]
    dsimp only
    rw [h]
    simp [hni]
  · rw [userPrompt_eq]
    unfold promptCore
    simp only [str_append_assoc]
    apply strContains_append_right
    apply strContains_append_right
    apply strContains_append_right
    apply strContains_append_right
    apply strContains_append_right
    apply strContains_append_right
    apply strContains_append_right
    apply strContains_append_right
    apply strContains_append_right
    apply strContains_append_right
    exact strContains_self_append (toString lines.length)
      (" numbered lines, nothing else" ++ ".")

/-- Scenario body with two raw recordings. -/
def twoTakesKvs : List (String × Json) :=
  [("recordings", Json.arr [Json.str "hey there sugar", Json.str "what did you do"])]

/-- Witness for C1 at a two-line request. -/
theorem C1_witness :
    (deriveRawLines (Json.obj twoTakesKvs) = some ["hey there sugar", "what did you do"] ∧
      (["hey there sugar", "what did you do"] : List String) ≠ []) ∧
    promptOf (Json.obj twoTakesKvs)
      = some (userPrompt ["hey there sugar", "what did you do"]
          (moodField twoTakesKvs) (sectionField twoTakesKvs) (storyField twoTakesKvs)) ∧
    strContains (userPrompt ["hey there sugar", "what did you do"]
        (moodField twoTakesKvs) (sectionField twoTakesKvs) (storyField twoTakesKvs))
      (toString (["hey there sugar", "what did you do"] : List String).length) = true :=
  ⟨⟨rfl, by decide⟩,
    C1_prompt_contains_count twoTakesKvs ["hey there sugar", "what did you do"] rfl (by decide)⟩

/-- C2: when the recordings iterate to values that all trim to the
empty string (in particular when the key is absent, so they iterate to
nothing) and the trimmed transcription is empty, the handler answers
400 with a JSON error body, for every generation-service outcome; the
response does not depend on the outcome because the call is never
made. -/
theorem C2_empty_input_400 (kvs : List (String × Json)) (xs : List Json) (up : Upstream)
    (hx : pyIter (dictGet kvs "recordings" (Json.arr [])) = some xs)
    (hr : ∀ x ∈ xs, pyStrip (pyStr x) = "")
    (ht : transcriptionOf kvs = "") :
    mumblr (Json.obj kvs) up = errorResponse "No recordings / transcription provided." 400 := by
  have hrec : recLines xs = [] := by
    unfold recLines
    rw [List.filter_eq_nil_iff]
    intro s hs
    rw [List.mem_map] at hs
    obtain ⟨x, hx', rfl⟩ := hs
    simp [hr x hx']
  unfold mumblr
  rw [dataOf_obj]
  dsimp only
  rw [hx]
  simp [hrec, ht]

/-- Witness for C2 at the empty request body. -/
theorem C2_witness :
    (pyIter (dictGet ([] : List (String × Json)) "recordings" (Json.arr []))
        = some ([] : List Json) ∧
      transcriptionOf ([] : List (String × Json)) = "") ∧
    mumblr (Json.obj []) (Upstream.success "x")
      = errorResponse "No recordings / transcription provided." 400 :=
  ⟨⟨rfl, rfl⟩, C2_empty_input_400 [] [] (Upstream.success "x") rfl (by simp) rfl⟩

/-- C3: when the recordings value is an array, the derived raw-line
list is the stringified-trimmed elements with empties dropped, and
exactly when that filtered list is empty and the trimmed transcription
is non-empty it is the one-element list holding the trimmed
transcription (the spec-worded derivation `specRawLines`). -/
theorem C3_raw_line_derivation (kvs : List (String × Json)) (xs : List Json)
    (h : dictGet kvs "recordings" (Json.arr []) = Json.arr xs) :
    deriveRawLines (Json.obj kvs) = some (specRawLines xs (transcriptionOf kvs)) := by
  have hs : specRawLines xs (transcriptionOf kvs)
      = if recLines xs = [] ∧ transcriptionOf kvs ≠ ""
        then [transcriptionOf kvs] else recLines xs := rfl
  unfold deriveRawLines
  rw [dataOf_obj]
  dsimp only
  rw [h, hs]
  simp only [pyIter]
  by_cases hc : recLines xs = [] ∧ transcriptionOf kvs ≠ ""
  · rw [if_pos hc]
    have hb : ((recLines xs).isEmpty && (transcriptionOf kvs != "")) = true := by
      simp [List.isEmpty_iff, hc.1, hc.2]
    rw [hb]
    simp
  · rw [if_neg hc]
    have hb : ((recLines xs).isEmpty && (transcriptionOf kvs != "")) = false := by
      rcases not_and_or.mp hc with h1 | h2
      · simp [List.isEmpty_iff, h1]
      · simp at h2
        simp [h2]
    rw [hb]
    simp

/-- Scenario body mixing a blank recording with a transcription. -/
def mixedKvs : List (String × Json) :=
  [("recordings", Json.arr [Json.str " hi ", Json.str ""]),
   ("transcription", Json.str " yo ")]

/-- Witness for C3 at a mixed request. -/
theorem C3_witness :
    dictGet mixedKvs "recordings" (Json.arr []) = Json.arr [Json.str " hi ", Json.str ""] ∧
    deriveRawLines (Json.obj mixedKvs)
      = some (specRawLines [Json.str " hi ", Json.str ""] (transcriptionOf mixedKvs)) :=
  ⟨rfl, C3_raw_line_derivation mixedKvs [Json.str " hi ", Json.str ""] rfl⟩

/-- Request with one recording and no mood, section or story. -/
def noCtxKvs : List (String × Json) :=
  [("recordings", Json.arr [Json.str "hold my hand"])]

/-- Counterexample to C4: with mood, section and story all absent, the
built prompt renders the story as `(none)` but renders mood and section
as nothing at all, not as `(none)`. -/
theorem C4_counterexample :
    (promptOf (Json.obj noCtxKvs)).isSome = true ∧
    strContains ((promptOf (Json.obj noCtxKvs)).getD "") "Story:   (none)" = true ∧
    strContains ((promptOf (Json.obj noCtxKvs)).getD "") "Mood:    (none)" = false ∧
    strContains ((promptOf (Json.obj noCtxKvs)).getD "") "Section: (none)" = false ∧
    strContains ((promptOf (Json.obj noCtxKvs)).getD "") "Mood:    \nSection: \nStory:   (none)"
      = true := by
  refine ⟨rfl, ?_, ?_, ?_, ?_⟩ <;> decide

/-- C4 as amended: only the story field falls back to the literal text
`(none)` when absent or blank; the mood and section fields render as
the empty string, so the prompt of such a request shows an empty mood
line, an empty section line, and a `(none)` story. -/
theorem C4_amended_only_story_none (kvs : List (String × Json)) (lines : List String)
    (hm : pyStrip (pyStr (dictGet kvs "mood" (Json.str ""))) = "")
    (hs : pyStrip (pyStr (dictGet kvs "section" (Json.str ""))) = "")
    (hst : pyStrip (pyStr (dictGet kvs "story" (Json.str ""))) = "") :
    moodField kvs = "" ∧ sectionField kvs = "" ∧ storyField kvs = "(none)" ∧
    strContains (userPrompt lines (moodField kvs) (sectionField kvs) (storyField kvs))
      "Mood:    \nSection: \nStory:   (none)" = true := by
  have h1 : moodField kvs = "" := hm
  have h2 : sectionField kvs = "" := hs
  have h3 : storyField kvs = "(none)" := by unfold storyField; rw [hst]; rfl
  refine ⟨h1, h2, h3, ?_⟩
  rw [h1, h2, h3, userPrompt_eq]
  unfold promptCore
  rw [show ("\n\n### Context\nMood:    " : String) = "\n\n### Context\n" ++ "Mood:    "
    from by decide]
  simp only [str_append_assoc, String.append_empty]
  apply strContains_append_right
  apply strContains_append_right
  apply strContains_append_right
  apply strContains_append_right
  have hP : ("Mood:    \nSection: \nStory:   (none)" : String) ++
        ("\n\n### Instructions\nFinish each raw take into a polished lyric line following the Requirements.\nReturn exactly " ++
          (toString lines.length ++ (" numbered lines, nothing else" ++ ".")))
      = "Mood:    " ++ ("\nSection: " ++ ("\nStory:   " ++ ("(none)" ++
          ("\n\n### Instructions\nFinish each raw take into a polished lyric line following the Requirements.\nReturn exactly " ++
            (toString lines.length ++ (" numbered lines, nothing else" ++ ".")))))) := by
    rw [show ("Mood:    \nSection: \nStory:   (none)" : String)
      = "Mood:    " ++ ("\nSection: " ++ ("\nStory:   " ++ "(none)")) from by decide]
    simp only [str_append_assoc]
  rw [← hP]
  exact strContains_self_append _ _

/-- Witness for the amended C4 at the one-recording request with no
context fields. -/
theorem C4_witness :
    (pyStrip (pyStr (dictGet noCtxKvs "mood" (Json.str ""))) = "" ∧
      pyStrip (pyStr (dictGet noCtxKvs "section" (Json.str ""))) = "" ∧
      pyStrip (pyStr (dictGet noCtxKvs "story" (Json.str ""))) = "") ∧
    (moodField noCtxKvs = "" ∧ sectionField noCtxKvs = "" ∧
      storyField noCtxKvs = "(none)" ∧
      strContains (userPrompt ["hold my hand"] (moodField noCtxKvs)
          (sectionField noCtxKvs) (storyField noCtxKvs))
        "Mood:    \nSection: \nStory:   (none)" = true) :=
  ⟨⟨rfl, rfl, rfl⟩,
    C4_amended_only_story_none noCtxKvs ["hold my hand"] rfl rfl rfl⟩

/-- C5: whenever the handler answers 200, the response body is the
generation-service reply with leading and trailing whitespace stripped,
and that stripped text occurs contiguously inside the reply (nothing is
reordered, renumbered or re-split). -/
theorem C5_success_returns_stripped (body : Json) (raw : String)
    (h : (mumblr body (Upstream.success raw)).status = 200) :
    (mumblr body (Upstream.success raw)).body = RespBody.textBody (pyStrip raw) ∧
    strContains raw (pyStrip raw) = true := by
  refine ⟨?_, infixB_pyStripL raw.data⟩
  by_cases hcall : ∃ lines, deriveRawLines body = some lines ∧ lines ≠ []
  · obtain ⟨lines, hl, hne⟩ := hcall
    rw [mumblr_reaches_call body lines (Upstream.success raw) hl hne]
  · have hall : ∀ lines, deriveRawLines body = some lines → lines = [] := by
      intro lines hl
      by_contra hne
      exact hcall ⟨lines, hl, hne⟩
    exact absurd h (mumblr_not_call body (Upstream.success raw) hall)

/-- Request holding only a transcription (end-to-end scenario 2 of the
spec). -/
def oneTakeKvs : List (String × Json) :=
  [("transcription", Json.str "oh baby why")]

/-- Witness for C5 at a transcription-only request and a reply with
surrounding whitespace. -/
theorem C5_witness :
    (mumblr (Json.obj oneTakeKvs) (Upstream.success "  1. oh baby why\n")).status = 200 ∧
    ((mumblr (Json.obj oneTakeKvs) (Upstream.success "  1. oh baby why\n")).body
        = RespBody.textBody (pyStrip "  1. oh baby why\n") ∧
      strContains "  1. oh baby why\n" (pyStrip "  1. oh baby why\n") = true) :=
  ⟨rfl, C5_success_returns_stripped (Json.obj oneTakeKvs) "  1. oh baby why\n" rfl⟩

/-- Counterexample to C6: on an upstream OpenAIError the handler does
answer 502 with a JSON error body, but the message embeds the upstream
error text verbatim rather than a generic description. -/
theorem C6_counterexample :
    mumblr (Json.obj twoTakesKvs) (Upstream.openaiError "connection reset by peer")
      = errorResponse ("OpenAI API error: " ++ "connection reset by peer") 502 ∧
    strContains ("OpenAI API error: " ++ "connection reset by peer")
      "connection reset by peer" = true := by
  refine ⟨rfl, ?_⟩
  decide

/-- C6 as amended: when the generation-service call raises an
OpenAIError, the handler answers 502 with a JSON error body whose
message is the text `OpenAI API error: ` followed by the upstream
error's own text (upstream internals are included, not hidden). -/
theorem C6_upstream_502_with_details (body : Json) (lines : List String) (msg : String)
    (h : deriveRawLines body = some lines) (hne : lines ≠ []) :
    mumblr body (Upstream.openaiError msg)
      = errorResponse ("OpenAI API error: " ++ msg) 502 := by
  rw [mumblr_reaches_call body lines (Upstream.openaiError msg) h hne]

/-- Witness for the amended C6 at a two-recording request. -/
theorem C6_witness :
    (deriveRawLines (Json.obj twoTakesKvs)
        = some ["hey there sugar", "what did you do"] ∧
      (["hey there sugar", "what did you do"] : List String) ≠ []) ∧
    mumblr (Json.obj twoTakesKvs) (Upstream.openaiError "boom")
      = errorResponse ("OpenAI API error: " ++ "boom") 502 :=
  ⟨⟨rfl, by decide⟩,
    C6_upstream_502_with_details (Json.obj twoTakesKvs)
      ["hey there sugar", "what did you do"] "boom" rfl (by decide)⟩

/-- C7: the syllable estimator always returns a positive count, and
meets the concrete values of the spec: one syllable for love, three for
banana, one (the floor) for the empty string. -/
theorem C7_count_syllables_positive :
    (∀ s : String, 1 ≤ count_syllables s) ∧
    count_syllables "love" = 1 ∧ count_syllables "banana" = 3 ∧ count_syllables "" = 1 := by
  refine ⟨fun s => ?_, by decide, by decide, by decide⟩
  exact Nat.le_max_right _ _

/-- C8: the raw-line derivation is a pure function of the request body,
so two runs on the same body agree. -/
theorem C8_validation_deterministic (body : Json) (r₁ r₂ : Option (List String))
    (h₁ : deriveRawLines body = r₁) (h₂ : deriveRawLines body = r₂) : r₁ = r₂ :=
  h₁.symm.trans h₂

/-- Witness for C8 at the transcription-only request. -/
theorem C8_witness :
    (deriveRawLines (Json.obj oneTakeKvs) = some ["oh baby why"] ∧
      deriveRawLines (Json.obj oneTakeKvs) = some ["oh baby why"]) ∧
    (some ["oh baby why"] : Option (List String)) = some ["oh baby why"] :=
  ⟨⟨rfl, rfl⟩,
    C8_validation_deterministic (Json.obj oneTakeKvs)
      (some ["oh baby why"]) (some ["oh baby why"]) rfl rfl⟩

/-- C9: recordings elements that are not strings are not rejected: any
element whose Python str() trims to a non-empty text contributes that
text as a raw line, as the concrete evaluation on a number, a boolean,
a null and a nested object shows; derivation on such an array
succeeds. -/
theorem C9_nonstring_values_accepted :
    (∀ (xs : List Json) (x : Json), x ∈ xs → pyStrip (pyStr x) ≠ "" →
      pyStrip (pyStr x) ∈ recLines xs) ∧
    recLines [Json.num 7, Json.bool true, Json.null, Json.obj [("a", Json.num 1)]]
      = ["7", "True", "None", "\x7b'a': 1\x7d"] ∧
    (deriveRawLines (Json.obj [("recordings",
        Json.arr [Json.num 7, Json.bool true, Json.null, Json.obj [("a", Json.num 1)]])])).isSome
      = true := by
  refine ⟨?_, by decide, rfl⟩
  intro xs x hx hne
  unfold recLines
  rw [List.mem_filter]
  exact ⟨List.mem_map_of_mem _ hx, by simp [hne]⟩

/-- Witness for C9 at a numeric recordings element. -/
theorem C9_witness :
    (Json.num 7 ∈ [Json.num 7] ∧ pyStrip (pyStr (Json.num 7)) ≠ "") ∧
    pyStrip (pyStr (Json.num 7)) ∈ recLines [Json.num 7] :=
  ⟨⟨by simp, by decide⟩,
    C9_nonstring_values_accepted.1 [Json.num 7] (Json.num 7) (by simp) (by decide)⟩

/-- Counterexample to C10: the empty JSON array is a syntactically
valid non-object top-level value, yet the handler answers 400 (the
validation error), not 500, because the falsy body is coerced to the
empty dict. -/
theorem C10_counterexample :
    mumblr (Json.arr []) (Upstream.success "hi")
      = errorResponse "No recordings / transcription provided." 400 ∧
    (mumblr (Json.arr []) (Upstream.success "hi")).status ≠ 500 :=
  ⟨rfl, by decide⟩

/-- C10 as amended: a valid non-object top-level body that is truthy in
Python's sense (a non-empty array or string, a nonzero number, true)
yields a 500 response with a JSON error body; falsy non-object bodies
(empty array, empty string, zero, false, null) are coerced to the empty
object and yield the 400 validation error instead. -/
theorem C10_truthy_nonobject_500 (body : Json) (up : Upstream)
    (hobj : isObj body = false) (ht : pyTruthy body = true) :
    mumblr body up
      = errorResponse
          ("Server error: '" ++ pyTypeName body ++ "' object has no attribute 'get'") 500 := by
  have hd : dataOf body = body := by simp [dataOf, ht]
  unfold mumblr
  rw [hd]
  cases body with
  | obj kvs => simp [isObj] at hobj
  | null => rfl
  | bool b => rfl
  | num n => rfl
  | str s => rfl
  | arr xs => rfl

/-- Witness for the amended C10 at a non-empty array body. -/
theorem C10_witness :
    (isObj (Json.arr [Json.num 1]) = false ∧ pyTruthy (Json.arr [Json.num 1]) = true) ∧
    mumblr (Json.arr [Json.num 1]) (Upstream.success "x")
      = errorResponse
          ("Server error: '" ++ pyTypeName (Json.arr [Json.num 1]) ++
            "' object has no attribute 'get'") 500 :=
  ⟨⟨rfl, rfl⟩,
    C10_truthy_nonobject_500 (Json.arr [Json.num 1]) (Upstream.success "x") rfl rfl⟩

end Mumblr
